import Mathlib

/-!
Verification of the PerfectSSH SOCKS5-over-SSH tunnel broker.

This file gives a shallow embedding in Lean 4 of the parts of the program
that the specification's claims talk about:

* `doctor.py` — `AutoDoctor.analyze_error`, `repair_server`, `_verify_repair`;
* `tunnel.py` — `TunnelManager.connect`, `_connect_direct`, `_connect_bridge`,
  `disconnect`;
* `proxy.py` — `SocksHandler.handle` and `SocksHandler._forward`;
* `config.py` — `ConfigManager._load_config` and `_default_config`.

External effects (the SSH library, sockets, the filesystem) are modelled by
explicit environment parameters that say how each call would have gone; the
Lean functions then follow the Python control flow over those parameters.
Bytes are modelled as `Nat` (values 0..255 in practice).
-/

namespace PerfectSSH

/-! ## String helpers

Python's `pat in s` substring test and `str.lower`, over `String.data`. -/

/-- Does the character list `p` occur at the start of `s`? -/
def listStarts : List Char → List Char → Bool
  | [], _ => true
  | _ :: _, [] => false
  | p :: ps, c :: cs => p == c && listStarts ps cs

/-- Does `pat` occur contiguously somewhere inside the second list? -/
def listSub (pat : List Char) : List Char → Bool
  | [] => pat.isEmpty
  | c :: cs => listStarts pat (c :: cs) || listSub pat cs

/-- Python `pat in s` for strings: contiguous substring test. -/
def strIn (pat s : String) : Bool := listSub pat.data s.data

/-- Python `s.lower()` (ASCII case folding, which is all the patterns use). -/
def lowerStr (s : String) : String := ⟨s.data.map Char.toLower⟩

/-! ## Diagnoser — `AutoDoctor.analyze_error` (doctor.py 15-109)

The Python function builds a default diagnosis dict and runs one `if`/`elif`
chain of case-insensitive substring tests over the lowered message, each
branch overwriting every field. -/

/-- A diagnosis record: the dict built by `analyze_error`. -/
structure Diagnosis where
  reason : String
  fixable : Bool
  severity : String
  category : String
  solutions : List String
deriving DecidableEq

/-- `AutoDoctor.analyze_error`: prioritized first-match classification of an
error-message string, translated branch by branch from doctor.py 15-109. -/
def analyze_error (error_msg : String) : Diagnosis :=
  let error := lowerStr error_msg
  if strIn "permission denied" error || strIn "authentication failed" error then
    ⟨"Authentication Failed", true, "high", "auth",
     ["Check password", "Verify username", "Check SSH key permissions",
      "Enable password authentication"]⟩
  else if strIn "too many authentication failures" error then
    ⟨"Too Many Authentication Failures", true, "medium", "auth",
     ["Reduce MaxAuthTries in sshd_config", "Use SSH keys instead of passwords"]⟩
  else if strIn "connection refused" error then
    ⟨"SSH Service Not Running or Port Closed", true, "high", "service",
     ["Start SSH service", "Open firewall port", "Check SSH port configuration"]⟩
  else if strIn "connection timed out" error || strIn "timed out" error then
    ⟨"Connection Timeout - Network or Firewall Issue", true, "medium", "network",
     ["Check network connectivity", "Verify IP address", "Check firewall rules",
      "Test with different port"]⟩
  else if strIn "no route to host" error || strIn "network is unreachable" error then
    ⟨"Network Routing Issue", false, "high", "network",
     ["Check network configuration", "Verify IP reachability",
      "Contact network administrator"]⟩
  else if strIn "channel setup failed" error || strIn "tcp forwarding" error then
    ⟨"TCP Forwarding Disabled", true, "high", "config",
     ["Enable AllowTcpForwarding", "Enable GatewayPorts", "Restart SSH service"]⟩
  else if strIn "broken pipe" error || strIn "connection reset by peer" error then
    ⟨"Connection Interrupted", true, "medium", "config",
     ["Increase ClientAliveInterval", "Check network stability", "Enable KeepAlive"]⟩
  else if strIn "host key verification failed" error then
    ⟨"Host Key Changed or Verification Failed", true, "medium", "security",
     ["Remove old host key from known_hosts", "Verify server identity",
      "Use StrictHostKeyChecking=no for testing"]⟩
  else if strIn "resource temporarily unavailable" error then
    ⟨"Server Resource Limits", true, "medium", "system",
     ["Check system resources", "Increase limits in limits.conf",
      "Optimize server performance"]⟩
  else
    ⟨"Unknown Error", false, "unknown", "general", []⟩

/-! The specification side of claim C3: the classification table of spec §4.6,
read as data, with prioritized first-match semantics. -/

/-- One row of the spec §4.6 table: patterns, category, severity, fixable. -/
structure SpecRow where
  patterns : List String
  category : String
  severity : String
  fixable : Bool

/-- The table of spec §4.6, verbatim, in documented priority order. -/
def specTable : List SpecRow :=
  [⟨["permission denied", "authentication failed"], "auth", "high", true⟩,
   ⟨["too many authentication failures"], "auth", "medium", true⟩,
   ⟨["connection refused"], "service", "high", true⟩,
   ⟨["connection timed out", "timed out"], "network", "medium", true⟩,
   ⟨["no route to host", "network is unreachable"], "network", "high", false⟩,
   ⟨["channel setup failed", "tcp forwarding"], "config", "high", true⟩,
   ⟨["broken pipe", "connection reset by peer"], "config", "medium", true⟩,
   ⟨["host key verification failed"], "security", "medium", true⟩,
   ⟨["resource temporarily unavailable"], "system", "medium", true⟩]

/-- First row of the table (in order) any of whose patterns occurs in the
lowered message decides the outcome; no match gives the general row. -/
def firstMatch (e : String) : List SpecRow → String × String × Bool
  | [] => ("general", "unknown", false)
  | row :: rest =>
    if row.patterns.any (fun p => strIn p e) then (row.category, row.severity, row.fixable)
    else firstMatch e rest

/-- Modelled from the spec §4.6: classification is a prioritized first-match
over case-insensitive substring patterns, defaulting to general/unknown/no. -/
def diagnoseSpec (msg : String) : String × String × Bool :=
  firstMatch (lowerStr msg) specTable

/-! ## Remediator — `AutoDoctor._verify_repair` and `repair_server`
(doctor.py 111-136 and 322-355)

Remote script execution (`_run_remote_script`) is modelled by its result: a
pair `(exit status 0?, stdout or stderr text)`, supplied by the environment. -/

/-- `AutoDoctor._verify_repair` applied to the result of running the
verification script: doctor.py 352-355 returns `True` iff the run succeeded
and both `SSH_ACTIVE` and `TCP_FORWARDING_ENABLED` occur in its output. -/
def verify_repair (run : Bool × String) : Bool :=
  if run.1 && strIn "SSH_ACTIVE" run.2 && strIn "TCP_FORWARDING_ENABLED" run.2 then true
  else false

/-- Results of the five remote operations `repair_server` may perform, plus
the local ping probe, as the environment would deliver them. -/
structure RepairEnv where
  connectivityOk : Bool
  networkRun : Bool × String
  sshdRun : Bool × String
  securityRun : Bool × String
  perfRun : Bool × String
  verifyRun : Bool × String

/-- `AutoDoctor.repair_server` (doctor.py 111-136): the phase sequence, with
the list of phases actually executed returned alongside the result.
Phase 1 runs `network_repair` only when the ping probe fails and discards its
result; phase 2 aborts the run on failure; phase 3 discards both results;
phase 4 decides the final outcome via `verify_repair`. -/
def repair_server (env : RepairEnv) : (Bool × String) × List String :=
  let t1 := if env.connectivityOk then ["connectivity_test"]
            else ["connectivity_test", "network_repair"]
  if !env.sshdRun.1 then
    ((false, "SSH Service Repair Failed: " ++ env.sshdRun.2), t1 ++ ["ssh_repair"])
  else
    let t2 := t1 ++ ["ssh_repair", "security_fix", "performance_opt", "verification"]
    if verify_repair env.verifyRun then ((true, "Comprehensive Repair Successful"), t2)
    else ((false, "Repair completed but verification failed"), t2)

/-! ## Configuration — `ConfigManager` (config.py) -/

/-- One hop record of the configuration; ports are stored as strings, as in
`_default_config` (config.py 15-22). -/
structure Hop where
  ip : String
  port : String
  user : String
  pass : String
deriving DecidableEq

/-- The configuration dict, with the keys the program uses. -/
structure AppConfig where
  mode : String
  hop1 : Hop
  hop2 : Hop
  local_port : Nat
  compression : Bool
deriving DecidableEq

/-- `ConfigManager._default_config` (config.py 15-22). -/
def default_config : AppConfig :=
  ⟨"1_hop", ⟨"", "22", "root", ""⟩, ⟨"", "22", "root", ""⟩, 1080, false⟩

/-- What the config file on disk can look like: absent, present but not
parseable as JSON, or parsed to some configuration value. -/
inductive FileState
  | missing
  | corrupt
  | parsed (c : AppConfig)
deriving DecidableEq

/-- `ConfigManager._load_config` (config.py 24-32), returning the in-memory
configuration together with the state of the file afterwards: a missing file
is written back with the defaults (`_save_config`); an unparseable file makes
the function return the defaults without touching the file; a parseable file
is loaded as is. -/
def load_config : FileState → AppConfig × FileState
  | .missing => (default_config, .parsed default_config)
  | .corrupt => (default_config, .corrupt)
  | .parsed c => (c, .parsed c)

/-- The mode check of `ConfigManager.validate_config` (config.py 53-54):
only the strings 1_hop and 2_hop pass validation. -/
def validate_mode (m : String) : Bool := m == "1_hop" || m == "2_hop"

/-! ## Tunnel manager — `TunnelManager` (tunnel.py)

SSH-level operations are recorded as events; sessions are numbered in
creation order within one `connect` call, and channels likewise.  The traffic
monitor and the system-proxy adapter cause no SSH traffic and are kept out of
the trace (the manager-state model below covers them for `disconnect`). -/

/-- Parse the port string of a hop the way `int(hop[...])` does for the
well-formed numeric strings the configuration holds. -/
def portNum (h : Hop) : Nat := h.port.toNat?.getD 0

/-- SSH-level operations performed by `connect`, in order. -/
inductive SSHEvent
  | sshConnect (host : String) (port : Nat) (user : String) (sock : Option Nat)
  | openChannel (onSession : Nat) (kind : String) (dest : String × Nat)
      (orig : String × Nat) (chanId : Nat)
  | socksStart (localPort : Nat) (onSession : Nat)
deriving DecidableEq

/-- How one SSH handshake attempt would end: the exception (if any) the
paramiko `connect` call raises, as the except-clauses of tunnel.py see it. -/
inductive ConnectOutcome
  | success
  | authFailed
  | sshError (msg : String)
  | timeout (msg : String)
  | connRefused (msg : String)
deriving DecidableEq

/-- `TunnelManager._connect_direct` (tunnel.py 93-131).  Every control path
of the Python function ends in `return` — the `try` covers everything after
client creation and its last clause catches `Exception` — so the translation
is a total function.  On success the trace is the hop1 handshake (session 0)
followed by starting the SOCKS proxy on session 0's transport. -/
def connect_direct (cfg : AppConfig) (out : ConnectOutcome) :
    (Bool × String) × List SSHEvent :=
  if cfg.hop1.ip = "" then ((false, "Server IP is missing."), [])
  else
    match out with
    | .success =>
        ((true, "Connected"),
         [.sshConnect cfg.hop1.ip (portNum cfg.hop1) cfg.hop1.user none,
          .socksStart cfg.local_port 0])
    | .authFailed => ((false, "Authentication failed"), [])
    | .sshError m => ((false, m), [])
    | .timeout m => ((false, m), [])
    | .connRefused m => ((false, m), [])

/-- Environment of one `_connect_bridge` attempt: how the relay handshake,
the `direct-tcpip` channel open on the relay, and the destination handshake
would each end (`chanFail = some m` means `open_channel` raised `m`). -/
structure BridgeEnv where
  relayOutcome : ConnectOutcome
  chanFail : Option String
  destOutcome : ConnectOutcome
deriving DecidableEq

/-- `TunnelManager._connect_bridge` (tunnel.py 133-196).  As with the direct
helper, every path returns.  On success: handshake to hop1 (session 0), a
`direct-tcpip` channel on session 0 to `(hop2.ip, hop2.port)` with originator
`("", 0)` (channel 0), the hop2 handshake over that channel as its socket
(session 1), and the SOCKS proxy started on session 1's transport. -/
def connect_bridge (cfg : AppConfig) (env : BridgeEnv) :
    (Bool × String) × List SSHEvent :=
  if cfg.hop1.ip = "" ∨ cfg.hop2.ip = "" then ((false, "Server IPs are missing."), [])
  else
    match env.relayOutcome with
    | .success =>
        let e1 := SSHEvent.sshConnect cfg.hop1.ip (portNum cfg.hop1) cfg.hop1.user none
        match env.chanFail with
        | some m => ((false, m), [e1])
        | none =>
          let e2 := SSHEvent.openChannel 0 "direct-tcpip"
                      (cfg.hop2.ip, portNum cfg.hop2) ("", 0) 0
          match env.destOutcome with
          | .success =>
              ((true, "Connected"),
               [e1, e2,
                .sshConnect cfg.hop2.ip (portNum cfg.hop2) cfg.hop2.user (some 0),
                .socksStart cfg.local_port 1])
          | .authFailed => ((false, "Authentication failed"), [e1, e2])
          | .sshError m => ((false, m), [e1, e2])
          | .timeout m => ((false, m), [e1, e2])
          | .connRefused m => ((false, m), [e1, e2])
    | .authFailed => ((false, "Authentication failed"), [])
    | .sshError m => ((false, m), [])
    | .timeout m => ((false, m), [])
    | .connRefused m => ((false, m), [])

/-- Environment of one iteration of the retry loop: what the helper invoked
on that attempt would see. -/
structure ConnectEnv where
  direct : ConnectOutcome
  bridge : BridgeEnv
deriving DecidableEq

/-- `TunnelManager.max_retries` (tunnel.py 70). -/
def max_retries : Nat := 3

/-- `TunnelManager.retry_delay` (tunnel.py 71), seconds. -/
def retry_delay : Nat := 2

/-- The body of the `try` block in `connect` (tunnel.py 80-85): dispatch on
the mode string, which is compared only against 1_hop. -/
def connectTry (cfg : AppConfig) (env : ConnectEnv) : (Bool × String) × List SSHEvent :=
  if cfg.mode = "1_hop" then connect_direct cfg env.direct
  else connect_bridge cfg env.bridge

/-- One loop iteration as the `except` clause sees it: the body either
returns a value or raises.  Both helpers end in `return` on every control
path (their `try` blocks catch `Exception`), so the body always returns. -/
def connectAttempt (cfg : AppConfig) (env : ConnectEnv) :
    Except String ((Bool × String) × List SSHEvent) :=
  Except.ok (connectTry cfg env)

/-- The `for attempt in range(max_retries)` loop of `connect` (tunnel.py
78-91) over the list of remaining attempt indices, accumulating the seconds
slept in backoff; the result also carries the number of attempts made.
`none` is the fall-off-the-loop case (Python would return `None`). -/
def connectFor (cfg : AppConfig) (envs : Nat → ConnectEnv) :
    List Nat → Nat → Option ((((Bool × String) × List SSHEvent)) × Nat × Nat)
  | [], _ => none
  | attempt :: rest, slept =>
    match connectAttempt cfg (envs attempt) with
    | .ok r => some (r, attempt + 1, slept)
    | .error e =>
      if attempt = max_retries - 1 then some (((false, e), []), attempt + 1, slept)
      else connectFor cfg envs rest (slept + retry_delay)

/-- `TunnelManager.connect` (tunnel.py 73-91): run the retry loop
(`kill_existing_ssh` beforehand has no SSH-trace effect). -/
def connect (cfg : AppConfig) (envs : Nat → ConnectEnv) :
    Option ((((Bool × String) × List SSHEvent)) × Nat × Nat) :=
  connectFor cfg envs (List.range max_retries) 0

/-! ## Teardown — `TunnelManager.disconnect` (tunnel.py 198-213) -/

/-- The resources a `TunnelManager` holds, as `disconnect` touches them.
`socksProxy`/`sshClientOpen`/`relayClientOpen` are `some b` when the Python
attribute is not `None`, with `b` recording whether the underlying resource
is still live (closing a closed paramiko client is a no-op). -/
structure ManagerState where
  socksProxy : Option Bool
  sshClientOpen : Option Bool
  relayClientOpen : Option Bool
  monitorActive : Bool
  systemProxyOn : Bool
  staleSshProcs : Bool
deriving DecidableEq

/-- `TunnelManager.disconnect`: stop and drop the SOCKS proxy if present,
close the SSH and relay clients if present (the attributes are kept), stop
the monitor, unregister the system proxy, kill stale ssh processes.  Every
step is a total state update: the Python body has no raising path (paramiko
`close` and the killed subprocesses do not raise, and errors in the external
utilities are logged and swallowed). -/
def disconnect (s : ManagerState) : ManagerState :=
  let s1 := match s.socksProxy with
    | some _ => { s with socksProxy := none }
    | none => s
  let s2 := match s1.sshClientOpen with
    | some _ => { s1 with sshClientOpen := some false }
    | none => s1
  let s3 := match s2.relayClientOpen with
    | some _ => { s2 with relayClientOpen := some false }
    | none => s2
  { s3 with monitorActive := false, systemProxyOn := false, staleSshProcs := false }

/-! ## SOCKS5 front end — `SocksHandler.handle` (proxy.py 25-91)

The client's byte stream is a list of `Nat`; `recv(k)` on it returns
`min k remaining` bytes (fewer only once the peer has sent everything and
closed, when further `recv` calls return empty).  The environment flag
`chanOk` says whether `transport.open_channel` would succeed for this flow. -/

/-- What one `SocksHandler.handle` invocation did: the reply bytes written to
the client, the `direct-tcpip` channel opened (destination and originator),
whether the relay loop was entered, and whether the client socket was closed
(the `finally` block always closes it). -/
structure HandleResult where
  sent : List Nat
  channelOpened : Option ((String × Nat) × (String × Nat))
  relayed : Bool
  closed : Bool
deriving DecidableEq

/-- Dotted-quad rendering of 4 address bytes (`socket.inet_ntoa`). -/
def ipv4String (b : List Nat) : String :=
  toString (b.getD 0 0) ++ "." ++ toString (b.getD 1 0) ++ "." ++
  toString (b.getD 2 0) ++ "." ++ toString (b.getD 3 0)

/-- Decoding of domain-name bytes (`bytes.decode`), for the ASCII names the
protocol carries. -/
def domainString (b : List Nat) : String := ⟨b.map Char.ofNat⟩

/-- The tail of `handle` shared by the IPv4 and domain arms (proxy.py 65-84):
read the 2-byte big-endian port, open the channel (reply `05 04 ...` and stop
on failure), reply `05 00 00 01` + six zero bytes and start forwarding on
success.  A short port read makes `struct.unpack` raise, which the outer
`except` swallows before `finally` closes the client.  `sent` lists only the
bytes this stage writes; `handle` prepends the earlier method reply. -/
def handleConnect (dest : String) (s : List Nat) (peer : String × Nat)
    (chanOk : Bool) : HandleResult :=
  match s with
  | p0 :: p1 :: _ =>
    let dport := p0 * 256 + p1
    if chanOk then ⟨[5, 0, 0, 1, 0, 0, 0, 0, 0, 0], some ((dest, dport), peer), true, true⟩
    else ⟨[5, 4, 0, 1, 0, 0, 0, 0, 0, 0], none, false, true⟩
  | _ => ⟨[], none, false, true⟩

/-- The request-details part of `handle` (proxy.py 39-84), applied to the
bytes left after method negotiation: `recv(4)` yields fewer than 4 bytes only
at end of stream (return); `CMD` other than 1 replies command-not-supported;
`ATYP` 1 parses four address bytes (a short read makes `inet_ntoa` raise),
`ATYP` 3 a length byte (`ord` of an empty read raises) and that many name
bytes, `ATYP` 4 replies address-type-not-supported, anything else returns.
The unread `VER` and `RSV` bytes are unpacked and unused, as in the source. -/
def handleRequest (s : List Nat) (peer : String × Nat) (chanOk : Bool) : HandleResult :=
  match s with
  | _ver :: cmd :: _rsv :: atyp :: s3 =>
    if cmd ≠ 1 then ⟨[5, 7, 0, 1, 0, 0, 0, 0, 0, 0], none, false, true⟩
    else if atyp = 1 then
      match s3 with
      | a0 :: a1 :: a2 :: a3 :: s4 => handleConnect (ipv4String [a0, a1, a2, a3]) s4 peer chanOk
      | _ => ⟨[], none, false, true⟩
    else if atyp = 3 then
      match s3 with
      | [] => ⟨[], none, false, true⟩
      | addr_len :: s4 =>
        handleConnect (domainString (s4.take addr_len)) (s4.drop addr_len) peer chanOk
    else if atyp = 4 then ⟨[5, 8, 0, 1, 0, 0, 0, 0, 0, 0], none, false, true⟩
    else ⟨[], none, false, true⟩
  | _ => ⟨[], none, false, true⟩

/-- `SocksHandler.handle` (proxy.py 25-91).  The greeting: `recv(2)` returns
nothing (return), or a first byte other than 5 (return), or one byte only
(indexing `header[1]` raises, landing in the outer `except`), or `VER = 5`
and a method count, after which that many method bytes are discarded, the
reply `05 00` is sent and the request details are processed.  Paths on which
Python raises land in the handler's outer `except`, which ignores the error;
the `finally` closes the client socket on every path. -/
def handle (input : List Nat) (peer : String × Nat) (chanOk : Bool) : HandleResult :=
  match input with
  | [] => ⟨[], none, false, true⟩
  | b :: rest =>
    if b ≠ 5 then ⟨[], none, false, true⟩
    else
      match rest with
      | [] => ⟨[], none, false, true⟩
      | nmethods :: s1 =>
        let r := handleRequest (s1.drop nmethods) peer chanOk
        ⟨[5, 0] ++ r.sent, r.channelOpened, r.relayed, r.closed⟩

/-- The threading TCP server: every accepted client is handled by its own
`SocksHandler` thread, independently of the others (proxy.py 10-23, 111-114).
`clients` lists, per accepted connection, its input bytes, peer address, and
whether its channel open would succeed. -/
def serveAll (clients : List (List Nat × ((String × Nat) × Bool))) : List HandleResult :=
  clients.map fun c => handle c.1 c.2.1 c.2.2

/-! ## Per-flow relay — `SocksHandler._forward` (proxy.py 93-109)

One loop iteration is driven by what `select.select([client, remote], [], [],
60)` reports and what the subsequent `recv` calls return.  A 60-second idle
expiry is the `timeout` event (empty ready set). -/

/-- What one `select` round delivers: a 60 s timeout with neither side ready,
data (possibly empty, meaning EOF) from one or both sides, or an exception
somewhere in the iteration (the `except` swallows it and the loop ends). -/
inductive ReadyEvent
  | timeout
  | clientData (data : List Nat)
  | remoteData (data : List Nat)
  | bothData (c : List Nat) (r : List Nat)
  | err
deriving DecidableEq

/-- Whether the relay loop is still running after the observed events. -/
inductive RelayStatus
  | running
  | finished
deriving DecidableEq

/-- One iteration of the `while True` body of `_forward`: the bytes forwarded
client-to-remote and remote-to-client this round, and whether the loop
continues.  On `timeout` the ready set is empty, both `if` bodies are
skipped, and the loop simply runs again.  When both are ready, the client
side is drained first; an EOF on either side breaks out (after forwarding
whatever the client side produced). -/
def forwardIter : ReadyEvent → (List Nat × List Nat) × Bool
  | .timeout => (([], []), true)
  | .err => (([], []), false)
  | .clientData [] => (([], []), false)
  | .clientData d => ((d, []), true)
  | .remoteData [] => (([], []), false)
  | .remoteData d => (([], d), true)
  | .bothData [] _ => (([], []), false)
  | .bothData d [] => ((d, []), false)
  | .bothData d e => ((d, e), true)

/-- `SocksHandler._forward` run over a finite prefix of select rounds:
accumulated bytes each way and whether the loop has exited (`finished`, upon
which the `finally` closes the channel) or is still polling (`running`). -/
def forwardRun : List ReadyEvent → (List Nat × List Nat) × RelayStatus
  | [] => (([], []), .running)
  | e :: es =>
    let r := forwardIter e
    if r.2 then
      let rec_ := forwardRun es
      ((r.1.1 ++ rec_.1.1, r.1.2 ++ rec_.1.2), rec_.2)
    else (r.1, .finished)

/-! ## Concrete instances used by witnesses and counterexamples -/

/-- A complete direct-mode configuration. -/
def cfgDirectTest : AppConfig :=
  ⟨"1_hop", ⟨"198.51.100.7", "22", "root", "pw"⟩, ⟨"", "22", "root", ""⟩, 1080, false⟩

/-- An environment in which every SSH handshake attempt raises a timeout. -/
def envPersistentTimeout : ConnectEnv :=
  ⟨.timeout "timed out", ⟨.timeout "timed out", none, .timeout "timed out"⟩⟩

/-- A complete bridge-mode configuration (spec scenario S2). -/
def cfgBridgeTest : AppConfig :=
  ⟨"2_hop", ⟨"10.0.0.1", "22", "root", "a"⟩, ⟨"10.0.0.2", "22", "root", "b"⟩, 1080, false⟩

/-- A configuration whose mode string is the invalid value 3_hop. -/
def cfg3hopTest : AppConfig :=
  ⟨"3_hop", ⟨"203.0.113.5", "22", "root", "x"⟩, ⟨"203.0.113.6", "22", "root", "y"⟩, 1080, false⟩

/-- An environment in which every SSH operation succeeds. -/
def envAllSuccess : ConnectEnv := ⟨.success, ⟨.success, none, .success⟩⟩

/-- A manager holding every resource (mid-session state). -/
def mgrFull : ManagerState := ⟨some true, some true, some true, true, true, true⟩

/-! ## Shared lemmas -/

/-- Once the greeting `[5, nmethods]` and exactly `nmethods` method bytes have
been consumed, `handle` sends the method reply `05 00` and behaves as
`handleRequest` on the remaining bytes. -/
theorem handle_greeting (ms X : List Nat) (peer : String × Nat) (ok : Bool) :
    handle ([5, ms.length] ++ ms ++ X) peer ok =
      ⟨[5, 0] ++ (handleRequest X peer ok).sent, (handleRequest X peer ok).channelOpened,
       (handleRequest X peer ok).relayed, (handleRequest X peer ok).closed⟩ := by
  simp [handle, List.drop_left]

/-- Applying `disconnect` twice is the same as applying it once. -/
theorem disconnect_pair (s : ManagerState) : disconnect (disconnect s) = disconnect s := by
  rcases s with ⟨sp, sc, rc, m, p, st⟩
  cases sp <;> cases sc <;> cases rc <;> rfl

/-- The state after `disconnect`: proxy dropped, clients closed, monitor
stopped, system proxy off, stale processes killed. -/
theorem disconnect_final_state (s : ManagerState) :
    (disconnect s).socksProxy = none ∧
    (disconnect s).sshClientOpen ≠ some true ∧
    (disconnect s).relayClientOpen ≠ some true ∧
    (disconnect s).monitorActive = false ∧
    (disconnect s).systemProxyOn = false ∧
    (disconnect s).staleSshProcs = false := by
  rcases s with ⟨sp, sc, rc, m, p, st⟩
  cases sp <;> cases sc <;> cases rc <;> simp [disconnect]

/-! ## Claim theorems -/

/-- C1: `connect` makes exactly one attempt no matter how the SSH layer
behaves — the helpers `_connect_direct`/`_connect_bridge` catch every
exception and return, so the retry loop always exits on its first iteration
with zero backoff sleep; in particular, under a persistent transient timeout
the call returns after 1 attempt, not the 3 attempts with 2-second backoff
the claim states. -/
theorem connect_single_attempt :
    (∀ (cfg : AppConfig) (envs : Nat → ConnectEnv),
      connect cfg envs = some (connectTry cfg (envs 0), 1, 0)) ∧
    connect cfgDirectTest (fun _ => envPersistentTimeout) =
      some (((false, "timed out"), []), 1, 0) :=
  ⟨fun _ _ => rfl, rfl⟩

/-- C2 counterexample: after five consecutive 60-second idle select rounds
(no progress in either direction for 300 seconds) the relay loop of
`_forward` is still running — the idle timeout does not make the relay
exit, contrary to the claim. -/
theorem forward_idle_still_running_cex :
    (forwardRun (List.replicate 5 ReadyEvent.timeout)).2 = RelayStatus.running ∧
    (forwardRun (List.replicate 5 ReadyEvent.timeout)).2 ≠ RelayStatus.finished := by decide

/-- C2 (amended): the relay loop terminates whenever either direction
reports EOF or an error — also when both are ready and either yields EOF —
but a 60-second select round with no progress leaves the loop running, for
any number of consecutive idle rounds. -/
theorem forward_exit_conditions :
    (∀ es, (forwardRun (ReadyEvent.err :: es)).2 = RelayStatus.finished) ∧
    (∀ es, (forwardRun (ReadyEvent.clientData [] :: es)).2 = RelayStatus.finished) ∧
    (∀ es, (forwardRun (ReadyEvent.remoteData [] :: es)).2 = RelayStatus.finished) ∧
    (∀ es r, (forwardRun (ReadyEvent.bothData [] r :: es)).2 = RelayStatus.finished) ∧
    (∀ es c, (forwardRun (ReadyEvent.bothData c [] :: es)).2 = RelayStatus.finished) ∧
    (∀ n, (forwardRun (List.replicate n ReadyEvent.timeout)).2 = RelayStatus.running) := by
  refine ⟨fun es => rfl, fun es => rfl, fun es => rfl, fun es r => ?_,
    fun es c => ?_, fun n => ?_⟩
  · cases r <;> rfl
  · cases c <;> rfl
  · induction n with
    | zero => rfl
    | succ k ih => exact ih

/-- C3: for every error-message string, `analyze_error` returns exactly one
diagnosis whose category, severity and fixable flag agree with the
prioritized first-match over the case-insensitive substring patterns of the
spec §4.6 table, with non-matching strings classified general/unknown/not
fixable. -/
theorem analyze_error_matches_table (msg : String) :
    ((analyze_error msg).category, (analyze_error msg).severity, (analyze_error msg).fixable)
      = diagnoseSpec msg := by
  unfold analyze_error diagnoseSpec
  simp only [specTable, firstMatch, List.any_cons, List.any_nil, Bool.or_false]
  split_ifs <;> rfl

/-- C4 counterexample: a verification run whose output carries `SSH_ACTIVE`
and `TCP_FORWARDING_ENABLED` but no `FIREWALL_OPEN` sentinel is still
reported as success, so success does not require all three sentinels. -/
theorem verify_repair_missing_firewall_cex :
    verify_repair (true, "SSH_ACTIVE TCP_FORWARDING_ENABLED") = true ∧
    strIn "FIREWALL_OPEN" "SSH_ACTIVE TCP_FORWARDING_ENABLED" = false := by decide

/-- C4 (amended): the verification phase returns success exactly when the
remote script ran successfully and the two sentinels `SSH_ACTIVE` and
`TCP_FORWARDING_ENABLED` are present in its output; the `FIREWALL_OPEN`
sentinel the script emits is not consulted. -/
theorem verify_repair_success_iff (ok : Bool) (out : String) :
    (verify_repair (ok, out) = true ↔
      ok = true ∧ strIn "SSH_ACTIVE" out = true ∧ strIn "TCP_FORWARDING_ENABLED" out = true) := by
  unfold verify_repair
  cases ok <;> cases h1 : strIn "SSH_ACTIVE" out <;>
    cases h2 : strIn "TCP_FORWARDING_ENABLED" out <;> simp [h1, h2]

/-- C5: `repair_server` reports overall success exactly when the sshd-repair
phase and the verification phase both succeed; the outcomes of the
connectivity probe, network repair, security and performance phases never
decide the result. -/
theorem repair_server_success_iff (env : RepairEnv) :
    ((repair_server env).1.1 = true ↔
      env.sshdRun.1 = true ∧ verify_repair env.verifyRun = true) := by
  unfold repair_server
  cases hs : env.sshdRun.1 <;> cases hv : verify_repair env.verifyRun <;> simp [hs, hv]

/-- C6: for every malformed SOCKS opening — empty greeting or first byte
other than 5, CMD other than 1, ATYP 4 (IPv6), or an unrecognized ATYP —
the handler opens no SSH channel, starts no relay, and closes the client
socket; an unsupported command is answered 05 07 00 01 00 00 00 00 00 00 and
an IPv6 address 05 08 00 01 00 00 00 00 00 00 (each after the 05 00 method
reply), the other cases send nothing further; and the threading listener
handles each accepted client independently, so later clients are still
served. -/
theorem socks_malformed_no_channel :
    (∀ (peer : String × Nat) (ok : Bool), handle [] peer ok = ⟨[], none, false, true⟩) ∧
    (∀ (b : Nat) (rest : List Nat) (peer : String × Nat) (ok : Bool), b ≠ 5 →
      handle (b :: rest) peer ok = ⟨[], none, false, true⟩) ∧
    (∀ (n : Nat) (ms : List Nat) (ver cmd rsv atyp : Nat) (rest : List Nat)
        (peer : String × Nat) (ok : Bool), ms.length = n → cmd ≠ 1 →
      handle ([5, n] ++ ms ++ ([ver, cmd, rsv, atyp] ++ rest)) peer ok =
        ⟨[5, 0, 5, 7, 0, 1, 0, 0, 0, 0, 0, 0], none, false, true⟩) ∧
    (∀ (n : Nat) (ms : List Nat) (ver rsv : Nat) (rest : List Nat)
        (peer : String × Nat) (ok : Bool), ms.length = n →
      handle ([5, n] ++ ms ++ ([ver, 1, rsv, 4] ++ rest)) peer ok =
        ⟨[5, 0, 5, 8, 0, 1, 0, 0, 0, 0, 0, 0], none, false, true⟩) ∧
    (∀ (n : Nat) (ms : List Nat) (ver rsv atyp : Nat) (rest : List Nat)
        (peer : String × Nat) (ok : Bool), ms.length = n →
      atyp ≠ 1 → atyp ≠ 3 → atyp ≠ 4 →
      handle ([5, n] ++ ms ++ ([ver, 1, rsv, atyp] ++ rest)) peer ok =
        ⟨[5, 0], none, false, true⟩) ∧
    (∀ c cs, serveAll (c :: cs) = handle c.1 c.2.1 c.2.2 :: serveAll cs) := by
  refine ⟨fun peer ok => rfl, ?_, ?_, ?_, ?_, fun c cs => rfl⟩
  · intro b rest peer ok hb
    simp [handle, hb]
  · intro n ms ver cmd rsv atyp rest peer ok hlen hcmd
    subst hlen
    rw [handle_greeting]
    simp [handleRequest, hcmd]
  · intro n ms ver rsv rest peer ok hlen
    subst hlen
    rw [handle_greeting]
    simp [handleRequest]
  · intro n ms ver rsv atyp rest peer ok hlen h1 h3 h4
    subst hlen
    rw [handle_greeting]
    simp [handleRequest, h1, h3, h4]

/-- C6 witness: concrete malformed openings — greeting byte 4, CMD 3,
ATYP 4, ATYP 9 — each with no channel, no relay, a closed client and the
specified replies. -/
theorem socks_malformed_no_channel_witness :
    ((4 : Nat) ≠ 5) ∧
    handle (4 :: [1, 0]) ("127.0.0.1", 40000) true = ⟨[], none, false, true⟩ ∧
    (([0] : List Nat).length = 1 ∧ (3 : Nat) ≠ 1) ∧
    handle ([5, 1] ++ [0] ++ ([5, 3, 0, 1] ++ [9, 9])) ("127.0.0.1", 40001) true =
      ⟨[5, 0, 5, 7, 0, 1, 0, 0, 0, 0, 0, 0], none, false, true⟩ ∧
    handle ([5, 0] ++ [] ++ ([5, 1, 0, 4] ++ [])) ("127.0.0.1", 40002) true =
      ⟨[5, 0, 5, 8, 0, 1, 0, 0, 0, 0, 0, 0], none, false, true⟩ ∧
    ((9 : Nat) ≠ 1 ∧ (9 : Nat) ≠ 3 ∧ (9 : Nat) ≠ 4) ∧
    handle ([5, 0] ++ [] ++ ([5, 1, 0, 9] ++ [])) ("127.0.0.1", 40003) true =
      ⟨[5, 0], none, false, true⟩ :=
  ⟨by decide,
   socks_malformed_no_channel.2.1 4 [1, 0] ("127.0.0.1", 40000) true (by decide),
   ⟨rfl, by decide⟩,
   socks_malformed_no_channel.2.2.1 1 [0] 5 3 0 1 [9, 9] ("127.0.0.1", 40001) true rfl (by decide),
   socks_malformed_no_channel.2.2.2.1 0 [] 5 0 [] ("127.0.0.2", 40002) true rfl,
   ⟨by decide, by decide, by decide⟩,
   socks_malformed_no_channel.2.2.2.2.1 0 [] 5 0 9 [] ("127.0.0.3", 40003) true rfl
     (by decide) (by decide) (by decide)⟩

/-- C7: in bridge mode with both hops configured and every SSH operation
succeeding, `_connect_bridge` first opens a session to hop1 (session 0),
then opens a direct-tcpip channel on it to hop2's address (channel 0), uses
exactly that channel as the socket of the second handshake to hop2
(session 1), and starts the SOCKS proxy on session 1's transport. -/
theorem bridge_two_sessions (cfg : AppConfig)
    (h1 : cfg.hop1.ip ≠ "") (h2 : cfg.hop2.ip ≠ "") :
    connect_bridge cfg ⟨.success, none, .success⟩ =
      ((true, "Connected"),
       [.sshConnect cfg.hop1.ip (portNum cfg.hop1) cfg.hop1.user none,
        .openChannel 0 "direct-tcpip" (cfg.hop2.ip, portNum cfg.hop2) ("", 0) 0,
        .sshConnect cfg.hop2.ip (portNum cfg.hop2) cfg.hop2.user (some 0),
        .socksStart cfg.local_port 1]) := by
  have hne : ¬(cfg.hop1.ip = "" ∨ cfg.hop2.ip = "") := by
    rintro (h | h)
    · exact h1 h
    · exact h2 h
  unfold connect_bridge
  rw [if_neg hne]

/-- C7 witness: the bridge trace at a concrete two-hop configuration. -/
theorem bridge_two_sessions_witness :
    cfgBridgeTest.hop1.ip ≠ "" ∧ cfgBridgeTest.hop2.ip ≠ "" ∧
    connect_bridge cfgBridgeTest ⟨.success, none, .success⟩ =
      ((true, "Connected"),
       [.sshConnect cfgBridgeTest.hop1.ip (portNum cfgBridgeTest.hop1) cfgBridgeTest.hop1.user none,
        .openChannel 0 "direct-tcpip" (cfgBridgeTest.hop2.ip, portNum cfgBridgeTest.hop2) ("", 0) 0,
        .sshConnect cfgBridgeTest.hop2.ip (portNum cfgBridgeTest.hop2) cfgBridgeTest.hop2.user (some 0),
        .socksStart cfgBridgeTest.local_port 1]) :=
  ⟨by decide, by decide, bridge_two_sessions cfgBridgeTest (by decide) (by decide)⟩

/-- C8: `disconnect` is idempotent — iterating it any number N of at least 1
times from any manager state reaches the same final state as one call, and
after it the listener is dropped, both SSH clients are closed, the monitor
is stopped and the system proxy is unregistered (the Lean model is a total
function: no path of the Python body raises). -/
theorem disconnect_idempotent (s : ManagerState) (n : Nat) (h : 1 ≤ n) :
    disconnect^[n] s = disconnect s ∧
    ((disconnect s).socksProxy = none ∧
     (disconnect s).sshClientOpen ≠ some true ∧
     (disconnect s).relayClientOpen ≠ some true ∧
     (disconnect s).monitorActive = false ∧
     (disconnect s).systemProxyOn = false ∧
     (disconnect s).staleSshProcs = false) := by
  refine ⟨?_, disconnect_final_state s⟩
  obtain ⟨k, rfl⟩ : ∃ k, n = k + 1 := ⟨n - 1, by omega⟩
  clear h
  induction k generalizing s with
  | zero => rfl
  | succ k ih =>
    rw [Function.iterate_succ_apply, ih (disconnect s), disconnect_pair]

/-- C8 witness: three disconnects from a fully connected manager equal one. -/
theorem disconnect_idempotent_witness :
    1 ≤ 3 ∧
    (disconnect^[3] mgrFull = disconnect mgrFull ∧
     ((disconnect mgrFull).socksProxy = none ∧
      (disconnect mgrFull).sshClientOpen ≠ some true ∧
      (disconnect mgrFull).relayClientOpen ≠ some true ∧
      (disconnect mgrFull).monitorActive = false ∧
      (disconnect mgrFull).systemProxyOn = false ∧
      (disconnect mgrFull).staleSshProcs = false)) :=
  ⟨by decide, disconnect_idempotent mgrFull 3 (by decide)⟩

/-- C9 counterexample: on a corrupt (unparseable) config file, loading
returns the defaults in memory but leaves the file corrupt on disk — it is
not rewritten with the defaults as the claim states. -/
theorem load_config_corrupt_cex :
    (load_config FileState.corrupt).1 = default_config ∧
    (load_config FileState.corrupt).2 = FileState.corrupt ∧
    (load_config FileState.corrupt).2 ≠ FileState.parsed default_config := by decide

/-- C9 (amended): a missing config file is replaced by the defaults both in
memory and on disk, while a corrupt file yields the defaults in memory only,
the file on disk being left unchanged. -/
theorem load_config_defaults :
    load_config FileState.missing = (default_config, FileState.parsed default_config) ∧
    load_config FileState.corrupt = (default_config, FileState.corrupt) :=
  ⟨rfl, rfl⟩

/-- C10: `connect` checks the mode string only against 1_hop, so every
configuration with any other mode — including values such as 3_hop or the
empty string that `validate_config` rejects (only 2_hop passes among them) —
takes the bridge path rather than failing as a configuration error. -/
theorem connect_mode_dispatch (cfg : AppConfig) (env : ConnectEnv)
    (h : cfg.mode ≠ "1_hop") :
    connectTry cfg env = connect_bridge cfg env.bridge ∧
    (validate_mode cfg.mode = true ↔ cfg.mode = "2_hop") := by
  constructor
  · unfold connectTry
    rw [if_neg h]
  · unfold validate_mode
    simp [h]

/-- C10 witness: the invalid mode 3_hop is dispatched to the bridge path. -/
theorem connect_mode_dispatch_witness :
    cfg3hopTest.mode ≠ "1_hop" ∧
    (connectTry cfg3hopTest envAllSuccess = connect_bridge cfg3hopTest envAllSuccess.bridge ∧
     (validate_mode cfg3hopTest.mode = true ↔ cfg3hopTest.mode = "2_hop")) :=
  ⟨by decide, connect_mode_dispatch cfg3hopTest envAllSuccess (by decide)⟩

end PerfectSSH
